import Mathlib

/-!
Verification of the bastion session lifecycle controller
(`src/v1/connector.py`, `src/v1/ec2_utils.py`).

The Python code is shallowly embedded: every provider call, prompt, sleep and
log is recorded as an `Effect` in an execution trace; `sys.exit(code)` is the
`PyResult.exited code` outcome; an uncaught Python `TypeError` is
`PyResult.typeError`; a loop that would run beyond the modelling fuel is
`PyResult.diverge`.  The external world (AWS inventory, instance power states,
user answers, SSH transport, the SSM broker child process) is an explicit
environment `Env` threaded through the functions that mutate it.
-/

/-- Severity levels of the logger (`src/v1/logger.py`). -/
inductive LogLevel where
  | info
  | warning
  | error
  | critical
deriving DecidableEq

/-- Observable actions of the embedded code: AWS API calls, waiters, user
prompts, sleeps, SSH/SSM transport operations and log lines. -/
inductive Effect where
  | describeRegions
  | describeInstances
  | describeInstanceStatus (instanceId : String)
  | startInstances (instanceId : String)
  | waitInstanceRunning (instanceId : String)
  | stopInstances (instanceId : String)
  | waitInstanceStopped (instanceId : String)
  | confirmPrompt (instanceId : String)
  | promptSelect
  | sleep (secs : Nat)
  | log (lvl : LogLevel)
  | sshConnect (host : String)
  | invokeShell
  | sshExec (command : String)
  | sshClose
  | spawnSession (instanceId : String)
  | pollChild
  | terminateChild
  | waitChild
  | sendCommand (command : String) (instanceId : String)
  | getCommandInvocation (instanceId : String)
deriving DecidableEq

/-- Outcome of running a piece of Python code: normal value, `sys.exit(code)`,
an uncaught `TypeError`, or exhaustion of the modelling fuel (the real loop
would still be running). -/
inductive PyResult (α : Type) where
  | ok (a : α)
  | exited (code : Int)
  | typeError
  | diverge
deriving DecidableEq

/-- Propagate a non-`ok` outcome while discarding the value type. -/
def PyResult.toUnit : PyResult α → PyResult Unit
  | .ok _ => .ok ()
  | .exited c => .exited c
  | .typeError => .typeError
  | .diverge => .diverge

/-- An EC2 tag (`Key`/`Value` pair). -/
structure Ec2Tag where
  key : String
  value : String
deriving DecidableEq

/-- An EC2 instance as seen through `describe_instances`: its id and tags. -/
structure Ec2Instance where
  instanceId : String
  tags : List Ec2Tag
deriving DecidableEq

/-- Outcome of `paramiko.SSHClient.connect` in
`ssh_instance_connection_handler`. -/
inductive ConnectOutcome where
  | ok
  | noValidConnections
  | sshError
deriving DecidableEq

/-- One iteration of the interactive SSH loop
(`ssh_interactive_session_handler`): how many 1024-byte stdout / stderr chunks
are ready on the channel, the line read from local stdin (if any), whether the
remote signalled command completion, and the wall-clock time `time.time()`
observed at the top of the iteration. -/
structure IterInput where
  recvChunks : Nat
  stderrChunks : Nat
  stdinLine : Option String
  exitStatusReady : Bool
  time : Nat
deriving DecidableEq

/-- The external world: AWS inventory (reservations of instances), per-id
power state and public IP, whether `describe_regions` authenticates, the
answer to the stop confirmation prompt, whether `stop_instances` raises, the
SSH connect / shell outcomes, whether the SSH transport is active at teardown,
the interactive-session event trace, the one-shot `exec_command` results, and
the interactive locator inputs. -/
structure Env where
  reservations : List (List Ec2Instance)
  instanceStates : String → String
  publicIps : String → Option String
  validateOk : Bool
  confirmAnswer : Bool
  stopFails : Bool
  connectOutcome : ConnectOutcome
  invokeShellOk : Bool
  transportActive : Bool
  sessionStart : Nat
  sessionTrace : List IterInput
  execChannelExc : Bool
  execExitStatus : Int
  locatorFuel : Nat
  selectInputs : List String

/- ===== Python string primitives used by the code ===== -/

/-- Python `str.lower` on one character (ASCII, as used by the name tags). -/
def charLower (c : Char) : Char :=
  if 65 ≤ c.toNat && c.toNat ≤ 90 then Char.ofNat (c.toNat + 32) else c

/-- Python `str.lower`. -/
def lowerStr (s : String) : String := ⟨s.data.map charLower⟩

/-- Whitespace characters stripped by Python `str.strip`. -/
def isSpaceChar (c : Char) : Bool :=
  c == ' ' || c == '\t' || c == '\n' || c == '\r'

/-- Drop leading whitespace from a character list. -/
def dropLeadSpaces : List Char → List Char
  | [] => []
  | c :: cs => if isSpaceChar c then dropLeadSpaces cs else c :: cs

/-- Python `str.strip`. -/
def pyStrip (s : String) : String :=
  ⟨(dropLeadSpaces ((dropLeadSpaces s.data).reverse)).reverse⟩

/-- Does `needle` occur at the head of `hay`? -/
def charsMatchAt : List Char → List Char → Bool
  | [], _ => true
  | _ :: _, [] => false
  | a :: as, b :: bs => a == b && charsMatchAt as bs

/-- Python `needle in hay` substring test. -/
def strContains (hay needle : String) : Bool :=
  (List.range (hay.data.length + 1)).any
    (fun k => charsMatchAt needle.data (hay.data.drop k))

/- ===== Instance Locator (`ec2_utils.py`, find_instance_by_name) ===== -/

/-- The tag test on connector line 51: `tag["Key"] == "Name" and
bastion_name.lower() in tag["Value"].lower()`. -/
def tagMatch (frag : String) (t : Ec2Tag) : Bool :=
  t.key == "Name" && strContains (lowerStr t.value) (lowerStr frag)

/-- Does some tag of the instance satisfy `tagMatch`? -/
def instanceMatches (frag : String) (inst : Ec2Instance) : Bool :=
  inst.tags.any (tagMatch frag)

/-- Inner tag loop of `find_instance_by_name`: first matching tag returns the
surrounding instance id. -/
def scanTags (frag instId : String) : List Ec2Tag → Option String
  | [] => none
  | t :: rest => if tagMatch frag t then some instId else scanTags frag instId rest

/-- Middle instance loop of `find_instance_by_name`. -/
def scanInstances (frag : String) : List Ec2Instance → Option String
  | [] => none
  | inst :: rest =>
    match scanTags frag inst.instanceId inst.tags with
    | some instId => some instId
    | none => scanInstances frag rest

/-- Outer reservation loop of `find_instance_by_name`. -/
def scanReservations (frag : String) : List (List Ec2Instance) → Option String
  | [] => none
  | res :: rest =>
    match scanInstances frag res with
    | some instId => some instId
    | none => scanReservations frag rest

/-- `list_instance_names`: the `Name` tag values of all instances. -/
def listInstanceNames (env : Env) : List String :=
  (env.reservations.flatten.map
    (fun inst => (inst.tags.filter (fun t => t.key == "Name")).map
      (fun t => t.value))).flatten

/-- `find_instance_by_name`: scan the inventory for the name fragment; on a
miss fall through to the interactive picker (`list_instance_names` +
`select_instance`) and re-enter with the selected name.  `stBastion` models
the `self.bastion` attribute, `inputs` the user answers to the picker prompt,
`fuel` bounds the re-entry depth of the real (unbounded) recursion. -/
def findInstanceByName (env : Env) :
    Nat → Option String → List String → Option String →
    PyResult String × Option String × List Effect
  | fuel, stBastion, inputs, bastionName =>
    let scanned :
        Option String × List Effect :=
      match bastionName with
      | some frag => (scanReservations frag env.reservations, [Effect.describeInstances])
      | none => (none, [])
    match scanned.1 with
    | some instId => (.ok instId, some instId, scanned.2)
    | none =>
      match stBastion with
      | some b => (.ok b, stBastion, scanned.2)
      | none =>
        let promptTr : List Effect :=
          scanned.2 ++ [.log .warning, .describeInstances, .promptSelect]
        match inputs with
        | [] => (.diverge, stBastion, promptTr)
        | sel :: restInputs =>
          if sel == "exit" then
            (.exited 0, stBastion, promptTr ++ [.log .warning])
          else
            match fuel with
            | 0 => (.diverge, stBastion, promptTr)
            | fuel0 + 1 =>
              let next := findInstanceByName env fuel0 stBastion restInputs (some sel)
              (next.1, next.2.1, promptTr ++ next.2.2)

/- ===== Instance Lifecycle Gate (`ec2_utils.py`) ===== -/

/-- `get_instance_state`: one `describe_instance_status` read; a state other
than running/stopped logs an error and exits 1. -/
def getInstanceState (env : Env) (instanceId : String) : PyResult String × List Effect :=
  let state := env.instanceStates instanceId
  if state == "running" || state == "stopped" then
    (.ok state, [.describeInstanceStatus instanceId])
  else
    (.exited 1, [.describeInstanceStatus instanceId, .log .error])

/-- `start_instance`: issue the start, wait (provider waiter) until the
instance reports running; the waiter convergence is modelled by updating the
power state to running. -/
def startInstance (env : Env) (instanceId : String) : Env × List Effect :=
  ({env with
      instanceStates := fun j => if j == instanceId then "running" else env.instanceStates j},
   [.startInstances instanceId, .log .info, .log .info, .waitInstanceRunning instanceId, .log .info])

/-- `stop_instance`: confirmation prompt first; a "no" answer logs a warning
and returns True without any stop call; a "yes" issues the stop and blocks on
the stopped waiter (a provider error while stopping logs and exits 1). -/
def stopInstance (env : Env) (instanceId : String) : PyResult Bool × Env × List Effect :=
  if env.confirmAnswer = false then
    (.ok true, env, [.confirmPrompt instanceId, .log .warning])
  else if env.stopFails then
    (.exited 1, env, [.confirmPrompt instanceId, .stopInstances instanceId, .log .error])
  else
    (.ok true,
     {env with
        instanceStates := fun j => if j == instanceId then "stopped" else env.instanceStates j},
     [.confirmPrompt instanceId, .stopInstances instanceId, .log .info,
      .waitInstanceStopped instanceId, .log .info])

/-- `get_instance_public_ip`: one `describe_instances` read; missing public
address logs error + warning and exits 1. -/
def getInstancePublicIp (env : Env) (instanceId : String) : PyResult String × List Effect :=
  match env.publicIps instanceId with
  | some ip => (.ok ip, [.describeInstances])
  | none => (.exited 1, [.describeInstances, .log .error, .log .warning])

/- ===== Session Orchestrator (`connector.py`) ===== -/

/-- The transport kind requested (`ServiceType` enum). -/
inductive ServiceType where
  | SSH
  | SSM
deriving DecidableEq

/-- `self.timeouts` entry for the direct (SSH) interactive session: 10 min. -/
def timeoutSsh : Nat := 10 * 60

/-- `self.timeouts` entry for the brokered (SSM) interactive session: 60 min. -/
def timeoutSsm : Nat := 60 * 60

/-- `ensure_instance_operational`: validate the AWS configuration (one
`describe_regions` read; on failure log critical and exit 1 before anything
else), resolve the instance, read its state, and if stopped start it (for SSH
additionally sleep `wait_ssh` seconds). -/
def ensureInstanceOperational (env : Env) (service : ServiceType)
    (bastionName : Option String) (waitSsh : Nat) :
    PyResult String × Env × List Effect :=
  if env.validateOk = false then
    (.exited 1, env, [.describeRegions, .log .error, .log .critical])
  else
    match findInstanceByName env env.locatorFuel none env.selectInputs bastionName with
    | (.ok instId, _st, trFind) =>
      match getInstanceState env instId with
      | (.ok state, trState) =>
        if state == "stopped" then
          let started := startInstance env instId
          let trStart := Effect.log .info :: started.2
          match service with
          | .SSH =>
            (.ok instId, started.1,
             Effect.describeRegions :: trFind ++ trState ++ trStart
               ++ [.log .info, .sleep waitSsh, .log .info])
          | .SSM =>
            (.ok instId, started.1,
             Effect.describeRegions :: trFind ++ trState ++ trStart ++ [.log .info])
        else
          (.ok instId, env, Effect.describeRegions :: trFind ++ trState)
      | (r, trState) =>
        (r, env, Effect.describeRegions :: trFind ++ trState)
    | (r, _st, trFind) =>
      (r, env, Effect.describeRegions :: trFind)

/- ===== Transport Session, direct variant (`connector.py` SSH) ===== -/

/-- `ssh_instance_connection_handler`: one connect attempt; refused /
unreachable logs error + wait-hint guidance and exits 1; other SSH errors log
and exit 1. -/
def sshInstanceConnectionHandler (env : Env) (host _username _keyPath : String) :
    PyResult Unit × List Effect :=
  match env.connectOutcome with
  | .ok => (.ok (), [.sshConnect host, .log .info])
  | .noValidConnections => (.exited 1, [.sshConnect host, .log .error, .log .warning])
  | .sshError => (.exited 1, [.sshConnect host, .log .error])

/-- Did the iteration deliver remote bytes (stdout or stderr chunks)?  Each
delivered chunk sets `last_input_time = current_time` in the loop. -/
def remoteActive (i : IterInput) : Bool :=
  i.recvChunks != 0 || i.stderrChunks != 0

/-- Was the local stdin line, lowered then stripped, the token `exit`
(connector line 223)? -/
def stdinExitCmd (i : IterInput) : Bool :=
  match i.stdinLine with
  | some s => pyStrip (lowerStr s) == "exit"
  | none => false

/-- Loop exits of the interactive SSH session: local `exit` command, remote
command completion, or the idle-timeout branch. -/
inductive LoopExit where
  | userExit
  | remoteExit
  | idleTimeout
deriving DecidableEq

/-- Result of one loop iteration: continue with the updated
`last_input_time`, or break out of the loop with it. -/
inductive StepRes where
  | cont (lastInput : Nat)
  | brk (lastInput : Nat) (e : LoopExit)
deriving DecidableEq

/-- One iteration of the `while True` loop in
`ssh_interactive_session_handler` (connector lines 206-234): relay remote
chunks (each sets `last_input_time` to `current_time`); a local `exit` line
breaks; `exit_status_ready` breaks; then the idle check
`(current_time - last_input_time) > timeout` breaks; otherwise continue. -/
def sshLoopStep (budget lastInput : Nat) (i : IterInput) : StepRes :=
  let l := if remoteActive i then i.time else lastInput
  if stdinExitCmd i then .brk l .userExit
  else if i.exitStatusReady then .brk l .remoteExit
  else if budget < i.time - l then .brk l .idleTimeout
  else .cont l

/-- The interactive loop over a finite event trace: final `last_input_time`
and the break kind (`none` when the trace ends with the loop still going). -/
def sshLoopRun (budget lastInput : Nat) : List IterInput → Nat × Option LoopExit
  | [] => (lastInput, none)
  | i :: rest =>
    match sshLoopStep budget lastInput i with
    | .brk l e => (l, some e)
    | .cont l => sshLoopRun budget l rest

/-- The `last_input_time` value the loop would hold after the iterations of
`tr`, starting from `l0`: reset to the iteration time exactly when remote
bytes arrive. -/
def specLastActivity (l0 : Nat) : List IterInput → Nat
  | [] => l0
  | i :: rest => specLastActivity (if remoteActive i then i.time else l0) rest

/-- Sanity condition on an event trace: the observed `time.time()` values are
non-decreasing and not earlier than the session start. -/
def timesMono : Nat → List IterInput → Bool
  | _, [] => true
  | l, i :: rest => Nat.ble l i.time && timesMono i.time rest

/-- `ssh_interactive_session_handler`: invoke the shell, run the interactive
loop; the `finally` block closes the transport and calls `stop_instance`
exactly when the transport is active (the early `return` on an inactive
transport also swallows an in-flight `SystemExit`; an exception raised by
`stop_instance` inside `finally` supersedes the in-flight one). -/
def sshInteractiveSessionHandler (env : Env) (bastionId : String) :
    PyResult Unit × Env × List Effect :=
  let body : PyResult Unit × List Effect :=
    if env.invokeShellOk = false then
      (.exited 1, [.invokeShell, .log .error])
    else
      match (sshLoopRun timeoutSsh env.sessionStart env.sessionTrace).2 with
      | some _ => (.ok (), [.invokeShell, .log .info])
      | none => (.diverge, [.invokeShell, .log .info])
  match body.1 with
  | .diverge => (.diverge, env, body.2)
  | bodyRes =>
    if env.transportActive = false then
      (.ok (), env, body.2 ++ [.log .info])
    else
      match stopInstance env bastionId with
      | (.ok _, env2, trStop) =>
        (bodyRes, env2, body.2 ++ [.log .info, .sshClose] ++ trStop ++ [.log .info])
      | (r, env2, trStop) =>
        (r.toUnit, env2, body.2 ++ [.log .info, .sshClose] ++ trStop)

/-- `run_ssh_command_and_exit`: execute one command over the open connection;
non-zero remote status logs and exits with that status; success logs, closes
the client and exits 0; a channel exception exits 1.  No stop of the instance
on any path. -/
def runSshCommandAndExit (env : Env) (command : String) : PyResult Unit × List Effect :=
  if env.execChannelExc then
    (.exited 1, [.log .info, .sshExec command, .log .error])
  else if env.execExitStatus != 0 then
    (.exited env.execExitStatus, [.log .info, .sshExec command, .log .error])
  else
    (.exited 0, [.log .info, .sshExec command, .log .info, .sshClose])

/-- `handle_ssh_interaction`: reject non-interactive calls without a command;
ensure the instance is operational, fetch its public IP, connect; then run the
one-shot command (command given, not interactive) or the interactive session
(interactive, no command); any other flag combination falls through and
returns with the connection still open. -/
def handleSshInteraction (env : Env) (_keyPath _username : String)
    (interactive : Bool) (command : Option String) (bastionName : Option String)
    (waitSsh : Nat) : PyResult Unit × Env × List Effect :=
  if interactive == false && command.isNone then
    (.exited 1, env, [.log .error])
  else
    match ensureInstanceOperational env .SSH bastionName waitSsh with
    | (.ok instId, env2, tr1) =>
      match getInstancePublicIp env2 instId with
      | (.ok host, tr2) =>
        match sshInstanceConnectionHandler env2 host _username _keyPath with
        | (.ok _, tr3) =>
          match command, interactive with
          | some c, false =>
            let r := runSshCommandAndExit env2 c
            (r.1, env2, tr1 ++ tr2 ++ tr3 ++ r.2)
          | none, true =>
            let r := sshInteractiveSessionHandler env2 instId
            (r.1, r.2.1, tr1 ++ tr2 ++ tr3 ++ r.2.2)
          | _, _ => (.ok (), env2, tr1 ++ tr2 ++ tr3)
        | (r, tr3) => (r.toUnit, env2, tr1 ++ tr2 ++ tr3)
      | (r, tr2) => (r.toUnit, env2, tr1 ++ tr2)
    | (r, env2, tr1) => (r.toUnit, env2, tr1)

/- ===== Transport Session, brokered variant (`connector.py` SSM) ===== -/

/-- Result of the `while True` liveness loop in `ssm_session_handler`: the
direct timed-out return (with the time and the never-updated
`last_input_time` at that moment), a child exit (with its code and time), or
fuel exhaustion. -/
inductive SsmLoopRes where
  | timedOut (now lastInput : Nat)
  | childExited (code : Int) (now : Nat)
  | fuelOut
deriving DecidableEq

/-- The liveness loop of `ssm_session_handler` (connector lines 343-353):
poll the child; if it exited, break with its code; if
`time.time() - last_input_time` exceeds the SSM budget, log, terminate, wait
and return -1; otherwise sleep 1 second.  `childExit t` is the child exit
code observable at second `t`; note no branch ever updates `lastInput`. -/
def ssmSessionLoop (childExit : Nat → Option Int) :
    Nat → Nat → Nat → SsmLoopRes × List Effect
  | 0, _, _ => (.fuelOut, [])
  | fuel + 1, now, lastInput =>
    match childExit now with
    | some code => (.childExited code now, [.pollChild])
    | none =>
      if now - lastInput > timeoutSsm then
        (.timedOut now lastInput, [.pollChild, .log .info, .terminateChild, .waitChild])
      else
        let next := ssmSessionLoop childExit fuel (now + 1) lastInput
        (next.1, .pollChild :: .sleep 1 :: next.2)

/-- `ssm_session_handler`: spawn the broker child (`aws ssm start-session`),
take `last_input_time = time.time()` once, run the liveness loop; a timeout
returns -1; a non-zero child exit is surfaced as-is; a zero exit triggers
`stop_instance` before returning 0. -/
def ssmSessionHandler (env : Env) (childExit : Nat → Option Int) (fuel : Nat)
    (instanceId : String) : PyResult Int × Env × List Effect :=
  let run := ssmSessionLoop childExit fuel 0 0
  match run.1 with
  | .timedOut _ _ => (.ok (-1), env, .spawnSession instanceId :: run.2)
  | .childExited code _ =>
    if code != 0 then
      (.ok code, env, .spawnSession instanceId :: run.2)
    else
      match stopInstance env instanceId with
      | (.ok _, env2, trStop) =>
        (.ok 0, env2, .spawnSession instanceId :: run.2 ++ trStop)
      | (.exited c, env2, trStop) =>
        (.exited c, env2, .spawnSession instanceId :: run.2 ++ trStop)
      | (.typeError, env2, trStop) =>
        (.typeError, env2, .spawnSession instanceId :: run.2 ++ trStop)
      | (.diverge, env2, trStop) =>
        (.diverge, env2, .spawnSession instanceId :: run.2 ++ trStop)
  | .fuelOut => (.diverge, env, .spawnSession instanceId :: run.2)

/-- Maximum status polls of `ssm_command_handler` (`max_retries`). -/
def ssmMaxRetries : Nat := 12

/-- Seconds slept between status polls of `ssm_command_handler`
(`wait_interval`). -/
def ssmWaitInterval : Nat := 5

/-- Broker statuses treated as terminal failure in `ssm_command_handler`. -/
def terminalFailureStatus (s : String) : Bool :=
  s == "Failed" || s == "Cancelled" || s == "TimedOut"

/-- The polling loop of `ssm_command_handler` (connector lines 393-409):
while `retry_count < max_retries`, poll the invocation status; `Success`
returns 0, a terminal failure returns 1, anything else sleeps 5 seconds and
retries; falling out of the loop logs and returns 1.  `statuses k` is the
status reported by the k-th poll; `remaining = max_retries - retry_count`. -/
def ssmPollLoop (statuses : Nat → String) (instanceId : String) :
    Nat → Nat → Int × List Effect
  | _retryCount, 0 => (1, [.log .error])
  | retryCount, remaining + 1 =>
    let s := statuses retryCount
    if s == "Success" then (0, [.getCommandInvocation instanceId, .log .info])
    else if terminalFailureStatus s then (1, [.getCommandInvocation instanceId, .log .error])
    else
      let next := ssmPollLoop statuses instanceId (retryCount + 1) remaining
      (next.1, .getCommandInvocation instanceId :: .sleep ssmWaitInterval :: next.2)

/-- `ssm_command_handler`: send the command through the broker, then run the
bounded polling loop. -/
def ssmCommandHandler (statuses : Nat → String) (command instanceId : String) :
    Int × List Effect :=
  let run := ssmPollLoop statuses instanceId 0 ssmMaxRetries
  (run.1, .sendCommand command instanceId :: run.2)

/-- `run_ssm_command_and_exit`: run the one-shot brokered command and exit
with its code (0 on success). -/
def runSsmCommandAndExit (statuses : Nat → String) (command instanceId : String) :
    PyResult Unit × List Effect :=
  let run := ssmCommandHandler statuses command instanceId
  if run.1 != 0 then
    (.exited run.1, .log .info :: run.2 ++ [.log .error])
  else
    (.exited 0, .log .info :: run.2 ++ [.log .info])

/-- Required positional parameters (beyond `self`) of
`ensure_instance_operational` as defined at connector.py line 128:
`service`, `bastion_name`, `wait_ssh` — none has a default value. -/
def ensureInstanceOperationalRequiredArgs : Nat := 3

/-- Positional arguments supplied to `ensure_instance_operational` at the
call site inside `handle_ssm_interaction` (connector.py line 86):
`ServiceType.SSM` and `bastion_name` only — `wait_ssh` is omitted. -/
def handleSsmEnsureCallArgs : Nat := 2

/-- `handle_ssm_interaction`: reject non-interactive calls without a command;
otherwise the call `self.ensure_instance_operational(ServiceType.SSM,
bastion_name)` at line 86 supplies fewer arguments than the callee requires,
so Python raises `TypeError` before any AWS call is made. -/
def handleSsmInteraction (env : Env) (interactive : Bool)
    (command : Option String) (_bastionName : Option String) :
    PyResult Unit × Env × List Effect :=
  if interactive == false && command.isNone then
    (.exited 1, env, [.log .error])
  else if handleSsmEnsureCallArgs < ensureInstanceOperationalRequiredArgs then
    (.typeError, env, [])
  else
    (.typeError, env, [])

/- ===== Trace helpers ===== -/

/-- A stop attempt is an entry into `stop_instance`, whose first action is
always the confirmation prompt. -/
def isStopAttempt : Effect → Bool
  | .confirmPrompt _ => true
  | _ => false

/-- Number of stop attempts recorded in a trace. -/
def stopAttempts (tr : List Effect) : Nat := tr.countP isStopAttempt

/-- Number of broker status polls recorded in a trace. -/
def pollCount (tr : List Effect) : Nat :=
  tr.countP (fun e => match e with
    | .getCommandInvocation _ => true
    | _ => false)

/-- The value `last_input_time` holds after one iteration: the iteration time
when remote bytes arrived, the previous value otherwise. -/
def stepClock (lastInput : Nat) (i : IterInput) : Nat :=
  if remoteActive i then i.time else lastInput

/-- The break (if any) produced by one loop iteration. -/
def stepExit (budget lastInput : Nat) (i : IterInput) : Option LoopExit :=
  match sshLoopStep budget lastInput i with
  | .brk _ e => some e
  | .cont _ => none

/-- Trace shape of `n` pending polls of `ssm_command_handler` followed by the
retry-exhaustion error log. -/
def pollSleepBlock (instanceId : String) : Nat → List Effect
  | 0 => [.log .error]
  | n + 1 =>
    .getCommandInvocation instanceId :: .sleep ssmWaitInterval :: pollSleepBlock instanceId n

/-- Trace shape of `n` liveness polls of `ssm_session_handler`, each followed
by a one-second sleep. -/
def pollSleepBlock1 : Nat → List Effect
  | 0 => []
  | n + 1 => .pollChild :: .sleep 1 :: pollSleepBlock1 n

/-- A concrete world for witnesses: two instances, every id running, public
IPs assigned, valid credentials, SSH transport healthy. -/
def envBase : Env where
  reservations := [[⟨"i-aaa", [⟨"Name", "Web-Prod"⟩]⟩], [⟨"i-bbb", [⟨"Name", "Bastion-Dev"⟩]⟩]]
  instanceStates := fun _ => "running"
  publicIps := fun _ => some "1.2.3.4"
  validateOk := true
  confirmAnswer := true
  stopFails := false
  connectOutcome := .ok
  invokeShellOk := true
  transportActive := true
  sessionStart := 0
  sessionTrace := []
  execChannelExc := false
  execExitStatus := 0
  locatorFuel := 3
  selectInputs := []

/-- World for the C1 counterexample: the one-shot remote command exits 5. -/
def envC1 : Env := {envBase with execExitStatus := 5}

/-- World for the C8 witness: the user answers "no" at the stop prompt. -/
def envC8 : Env := {envBase with confirmAnswer := false}

/-- World for the C9 witness: the credential probe fails. -/
def envC9 : Env := {envBase with validateOk := false}

/-- World for the C1 amended-claim witness: the interactive loop sees the
remote completion flag on its first iteration. -/
def envC1w : Env := {envBase with sessionTrace := [⟨0, 0, none, true, 1⟩]}
/- ===== Locator lemmas for C5 ===== -/

theorem scanTags_eq_any (frag instId : String) (tags : List Ec2Tag) :
    scanTags frag instId tags = if tags.any (tagMatch frag) then some instId else none := by
  induction tags with
  | nil => simp [scanTags]
  | cons t rest ih =>
    by_cases h : tagMatch frag t = true
    · simp [scanTags, h]
    · simp [scanTags, h, ih, List.any_cons]

theorem scanInstances_append (frag : String) (l1 l2 : List Ec2Instance) :
    scanInstances frag (l1 ++ l2) =
      match scanInstances frag l1 with
      | some instId => some instId
      | none => scanInstances frag l2 := by
  induction l1 with
  | nil => simp [scanInstances]
  | cons inst rest ih =>
    simp only [List.cons_append, scanInstances]
    cases scanTags frag inst.instanceId inst.tags with
    | some instId => simp
    | none => simpa using ih

theorem scanReservations_eq_join (frag : String) (rss : List (List Ec2Instance)) :
    scanReservations frag rss = scanInstances frag rss.flatten := by
  induction rss with
  | nil => simp [scanReservations, scanInstances]
  | cons res rest ih =>
    simp only [scanReservations, List.flatten_cons, scanInstances_append, ih]

theorem scanInstances_unique (frag : String) (inst : Ec2Instance)
    (l : List Ec2Instance) (hmem : inst ∈ l)
    (hmatch : instanceMatches frag inst = true)
    (huniq : ∀ i2 ∈ l, instanceMatches frag i2 = true → i2 = inst) :
    scanInstances frag l = some inst.instanceId := by
  induction l with
  | nil => cases hmem
  | cons hd rest ih =>
    by_cases hhd : instanceMatches frag hd = true
    · have : hd = inst := huniq hd (List.mem_cons_self hd rest) hhd
      subst this
      simp [scanInstances, scanTags_eq_any, instanceMatches] at hhd ⊢
      simp [hhd]
    · have hne : hd ≠ inst := by
        intro h
        exact hhd (h ▸ hmatch)
      have hmem2 : inst ∈ rest := by
        cases hmem with
        | head => exact absurd rfl hne
        | tail _ h => exact h
      have hrest := ih hmem2 (fun i2 hi2 hm => huniq i2 (List.mem_cons_of_mem hd hi2) hm)
      have hnone : scanTags frag hd.instanceId hd.tags = none := by
        simp only [scanTags_eq_any]
        simp only [instanceMatches] at hhd
        simp [hhd]
      simp [scanInstances, hnone, hrest]

/-- A successful inventory scan short-circuits `find_instance_by_name`: the
result is the scanned id after the single `describe_instances` read,
independent of the picker state, user inputs and fuel. -/
theorem findInstanceByName_scan_hit (env : Env) (fuel : Nat) (st : Option String)
    (inputs : List String) (frag instId : String)
    (hscan : scanReservations frag env.reservations = some instId) :
    findInstanceByName env fuel st inputs (some frag)
      = (.ok instId, some instId, [Effect.describeInstances]) := by
  unfold findInstanceByName
  simp [hscan]

/-- C5: for every name fragment that case-insensitively substring-matches
exactly one instance's Name tag in the inventory, `find_instance_by_name`
returns that instance's id — the first (and only) match of its scan — and the
only side effect is the single `describe_instances` read query. -/
theorem c5_resolve_unique_match (env : Env) (fuel : Nat) (st : Option String)
    (inputs : List String) (frag : String) (inst : Ec2Instance)
    (hmem : inst ∈ env.reservations.flatten)
    (hmatch : instanceMatches frag inst = true)
    (huniq : ∀ i2 ∈ env.reservations.flatten, instanceMatches frag i2 = true → i2 = inst) :
    findInstanceByName env fuel st inputs (some frag)
      = (.ok inst.instanceId, some inst.instanceId, [Effect.describeInstances]) := by
  have hscan : scanReservations frag env.reservations = some inst.instanceId := by
    rw [scanReservations_eq_join]
    exact scanInstances_unique frag inst _ hmem hmatch huniq
  exact findInstanceByName_scan_hit env fuel st inputs frag inst.instanceId hscan

/-- Witness for C5 at a concrete inventory: the fragment "bastion" matches
only the instance i-bbb (tag "Bastion-Dev"), and resolution returns i-bbb
after one read. -/
theorem c5_resolve_unique_match_witness :
    ((⟨"i-bbb", [⟨"Name", "Bastion-Dev"⟩]⟩ : Ec2Instance) ∈ envBase.reservations.flatten
      ∧ instanceMatches "bastion" ⟨"i-bbb", [⟨"Name", "Bastion-Dev"⟩]⟩ = true
      ∧ ∀ i2 ∈ envBase.reservations.flatten,
          instanceMatches "bastion" i2 = true → i2 = ⟨"i-bbb", [⟨"Name", "Bastion-Dev"⟩]⟩)
    ∧ findInstanceByName envBase 3 none [] (some "bastion")
        = (.ok "i-bbb", some "i-bbb", [Effect.describeInstances]) :=
  ⟨⟨by decide, by decide, by decide⟩,
   c5_resolve_unique_match envBase 3 none [] "bastion" ⟨"i-bbb", [⟨"Name", "Bastion-Dev"⟩]⟩
     (by decide) (by decide) (by decide)⟩

/-- C8: `stop_instance` asks for confirmation; a "no" answer returns True with
only a warning logged and no stop call issued, and a "yes" answer issues the
stop call, blocks on the stopped waiter and returns True. -/
theorem c8_stop_confirm_paths (env : Env) (instanceId : String) :
    (env.confirmAnswer = false →
      stopInstance env instanceId
        = (.ok true, env, [.confirmPrompt instanceId, .log .warning]))
    ∧ (env.confirmAnswer = true → env.stopFails = false →
      (stopInstance env instanceId).1 = .ok true
      ∧ (stopInstance env instanceId).2.2
          = [.confirmPrompt instanceId, .stopInstances instanceId, .log .info,
             .waitInstanceStopped instanceId, .log .info]) := by
  constructor
  · intro h
    simp [stopInstance, h]
  · intro h1 h2
    simp [stopInstance, h1, h2]

/-- Witness for C8: with a "no" answer the call succeeds without a stop
call. -/
theorem c8_stop_confirm_paths_witness :
    envC8.confirmAnswer = false
    ∧ stopInstance envC8 "i-bbb"
        = (.ok true, envC8, [.confirmPrompt "i-bbb", .log .warning]) :=
  ⟨rfl, (c8_stop_confirm_paths envC8 "i-bbb").1 rfl⟩

/-- C9: every `ensure_instance_operational` run performs the lightweight
`describe_regions` credential probe first, and if the probe fails the run
aborts with exit 1 and a critical log, with no locator query, no instance
query and no mutation of the world. -/
theorem c9_validate_before_locating (env : Env) (service : ServiceType)
    (bastionName : Option String) (waitSsh : Nat) :
    (ensureInstanceOperational env service bastionName waitSsh).2.2.head?
        = some Effect.describeRegions
    ∧ (env.validateOk = false →
      ensureInstanceOperational env service bastionName waitSsh
        = (.exited 1, env, [.describeRegions, .log .error, .log .critical])) := by
  constructor
  · unfold ensureInstanceOperational
    by_cases h : env.validateOk = false
    · simp [h]
    · simp only [h, if_false]
      rcases hf : findInstanceByName env env.locatorFuel none env.selectInputs bastionName
        with ⟨r, st2, trFind⟩
      cases r with
      | ok instId =>
        rcases hgs : getInstanceState env instId with ⟨r2, trState⟩
        cases r2 with
        | ok state =>
          by_cases hst : (state == "stopped") = true
          · cases service <;> simp [hgs, hst]
          · simp [hgs, hst]
        | exited c => simp [hgs]
        | typeError => simp [hgs]
        | diverge => simp [hgs]
      | exited c => simp
      | typeError => simp
      | diverge => simp
  · intro h
    simp [ensureInstanceOperational, h]

/-- Witness for C9: with failing credentials the run exits 1 after only the
probe and two log lines. -/
theorem c9_validate_before_locating_witness :
    envC9.validateOk = false
    ∧ ensureInstanceOperational envC9 .SSH (some "bastion") 20
        = (.exited 1, envC9, [.describeRegions, .log .error, .log .critical]) :=
  ⟨rfl, (c9_validate_before_locating envC9 .SSH (some "bastion") 20).2 rfl⟩

/-- C7: when the resolved instance already reports `running`,
`ensure_instance_operational` issues no start call and no grace sleep — its
whole trace is the probe, the scan and the status read — and calling it twice
in a row never issues a second start, whatever the initial state. -/
theorem c7_ensure_running_no_start (env : Env) (service : ServiceType)
    (frag instId : String) (w : Nat)
    (hval : env.validateOk = true)
    (hscan : scanReservations frag env.reservations = some instId) :
    (env.instanceStates instId = "running" →
      ensureInstanceOperational env service (some frag) w
        = (.ok instId, env,
           [.describeRegions, .describeInstances, .describeInstanceStatus instId]))
    ∧ ((env.instanceStates instId = "running" ∨ env.instanceStates instId = "stopped") →
      ∀ j, Effect.startInstances j ∉
        (ensureInstanceOperational
          (ensureInstanceOperational env service (some frag) w).2.1
          service (some frag) w).2.2) := by
  have running_eq : ∀ (e : Env), e.validateOk = true →
      scanReservations frag e.reservations = some instId →
      e.instanceStates instId = "running" →
      ensureInstanceOperational e service (some frag) w
        = (.ok instId, e,
           [.describeRegions, .describeInstances, .describeInstanceStatus instId]) := by
    intro e hv hs hr
    have hf := findInstanceByName_scan_hit e e.locatorFuel none e.selectInputs frag instId hs
    unfold ensureInstanceOperational
    simp [hv, hf, getInstanceState, hr]
  have stopped_env : ∀ (e : Env), e.validateOk = true →
      scanReservations frag e.reservations = some instId →
      e.instanceStates instId = "stopped" →
      (ensureInstanceOperational e service (some frag) w).2.1 = (startInstance e instId).1 := by
    intro e hv hs hr
    have hf := findInstanceByName_scan_hit e e.locatorFuel none e.selectInputs frag instId hs
    unfold ensureInstanceOperational
    cases service <;> simp [hv, hf, getInstanceState, hr]
  refine ⟨fun hr => running_eq env hval hscan hr, ?_⟩
  intro hstate j
  rcases hstate with hr | hs
  · rw [running_eq env hval hscan hr]
    rw [show ((PyResult.ok instId, env,
        [Effect.describeRegions, Effect.describeInstances,
         Effect.describeInstanceStatus instId]).2.1 : Env) = env from rfl]
    rw [running_eq env hval hscan hr]
    simp
  · rw [stopped_env env hval hscan hs]
    have hv2 : (startInstance env instId).1.validateOk = true := by
      simp [startInstance, hval]
    have hs2 : scanReservations frag (startInstance env instId).1.reservations = some instId := by
      simpa [startInstance] using hscan
    have hr2 : (startInstance env instId).1.instanceStates instId = "running" := by
      simp [startInstance]
    rw [running_eq (startInstance env instId).1 hv2 hs2 hr2]
    simp

/-- Witness for C7: in the base world the resolved instance is running and the
run performs no start and no sleep. -/
theorem c7_ensure_running_no_start_witness :
    (envBase.validateOk = true
      ∧ scanReservations "bastion" envBase.reservations = some "i-bbb"
      ∧ envBase.instanceStates "i-bbb" = "running")
    ∧ ensureInstanceOperational envBase .SSH (some "bastion") 20
        = (.ok "i-bbb", envBase,
           [.describeRegions, .describeInstances, .describeInstanceStatus "i-bbb"]) :=
  ⟨⟨rfl, by decide, rfl⟩,
   (c7_ensure_running_no_start envBase .SSH "bastion" "i-bbb" 20 rfl (by decide)).1 rfl⟩

/-- The polling loop never performs more status polls than its remaining
retry budget. -/
theorem ssmPollLoop_pollCount_le (statuses : Nat → String) (instanceId : String) :
    ∀ (remaining retryCount : Nat),
      pollCount (ssmPollLoop statuses instanceId retryCount remaining).2 ≤ remaining := by
  intro remaining
  induction remaining with
  | zero => intro rc; simp [ssmPollLoop, pollCount]
  | succ r ih =>
    intro rc
    unfold ssmPollLoop
    by_cases hS : (statuses rc == "Success") = true
    · simp [hS, pollCount]
    · by_cases hF : terminalFailureStatus (statuses rc) = true
      · simp [hS, hF, pollCount]
      · simp only [hS, hF, Bool.false_eq_true, if_false, pollCount, List.countP_cons]
        have := ih (rc + 1)
        simp only [pollCount] at this
        simp
        omega

/-- If the broker keeps reporting a pending status for the whole retry
budget, the polling loop runs the full budget and returns the failure
outcome 1 with the retry-exhaustion log. -/
theorem ssmPollLoop_all_pending (statuses : Nat → String) (instanceId : String) :
    ∀ (remaining retryCount : Nat),
      (∀ k, retryCount ≤ k → k < retryCount + remaining →
        statuses k ≠ "Success" ∧ terminalFailureStatus (statuses k) = false) →
      ssmPollLoop statuses instanceId retryCount remaining
        = (1, pollSleepBlock instanceId remaining) := by
  intro remaining
  induction remaining with
  | zero => intro rc _; simp [ssmPollLoop, pollSleepBlock]
  | succ r ih =>
    intro rc h
    have h0 := h rc (le_refl rc) (by omega)
    have hS : (statuses rc == "Success") = false := by
      simp [h0.1]
    unfold ssmPollLoop
    simp only [hS, h0.2, Bool.false_eq_true, if_false, pollSleepBlock]
    rw [ih (rc + 1) (fun k hk1 hk2 => h k (by omega) (by omega))]

/-- C6: `ssm_command_handler` performs at most 12 status polls; when the
broker never reports a terminal status within those polls, the run is exactly
the send, 12 poll/sleep(5) pairs and the timeout error log, and yields the
failure outcome 1. -/
theorem c6_poll_budget (statuses : Nat → String) (command instanceId : String) :
    pollCount (ssmCommandHandler statuses command instanceId).2 ≤ ssmMaxRetries
    ∧ ((∀ k, k < ssmMaxRetries →
          statuses k ≠ "Success" ∧ terminalFailureStatus (statuses k) = false) →
        ssmCommandHandler statuses command instanceId
          = (1, .sendCommand command instanceId :: pollSleepBlock instanceId ssmMaxRetries)) := by
  constructor
  · have := ssmPollLoop_pollCount_le statuses instanceId ssmMaxRetries 0
    simp only [ssmCommandHandler, pollCount, List.countP_cons] at this ⊢
    simpa using this
  · intro h
    have := ssmPollLoop_all_pending statuses instanceId ssmMaxRetries 0
      (fun k hk1 hk2 => h k (by omega))
    simp [ssmCommandHandler, this]

/-- Witness for C6: a broker that always answers `InProgress` exhausts the 12
polls and fails. -/
theorem c6_poll_budget_witness :
    (∀ k, k < ssmMaxRetries →
      (fun _ => "InProgress") k ≠ "Success"
        ∧ terminalFailureStatus ((fun _ => "InProgress") k) = false)
    ∧ ssmCommandHandler (fun _ => "InProgress") "uptime" "i-bbb"
        = (1, .sendCommand "uptime" "i-bbb" :: pollSleepBlock "i-bbb" ssmMaxRetries) :=
  ⟨fun _ _ => ⟨show "InProgress" ≠ "Success" by decide,
     show terminalFailureStatus "InProgress" = false by decide⟩,
   (c6_poll_budget (fun _ => "InProgress") "uptime" "i-bbb").2
     (fun _ _ => ⟨show "InProgress" ≠ "Success" by decide,
       show terminalFailureStatus "InProgress" = false by decide⟩)⟩

/-- C4: the claimed behaviour (broker reports Success on the first poll ⟹
exit code 0 with no further poll) holds of `run_ssm_command_and_exit`, but the
invocation `handle_ssm_interaction(interactive=False, command="uptime",
bastion_name="bastion-dev")` never reaches it: the call at connector.py line
86 omits the required `wait_ssh` argument of `ensure_instance_operational`
(line 128), so Python raises `TypeError` before any AWS call — the code, not
the claim, is at fault. -/
theorem c4_ssm_one_shot_type_error :
    handleSsmEnsureCallArgs < ensureInstanceOperationalRequiredArgs
    ∧ (handleSsmInteraction envBase false (some "uptime") (some "bastion-dev")).1
        = .typeError
    ∧ (handleSsmInteraction envBase false (some "uptime") (some "bastion-dev")).2.2 = []
    ∧ runSsmCommandAndExit (fun _ => "Success") "uptime" "i-bbb"
        = (.exited 0,
           [.log .info, .sendCommand "uptime" "i-bbb", .getCommandInvocation "i-bbb",
            .log .info, .log .info])
    ∧ pollCount (runSsmCommandAndExit (fun _ => "Success") "uptime" "i-bbb").2 = 1 := by
  refine ⟨by decide, rfl, rfl, by decide, by decide⟩

/-- C1 counterexample: an invocation that reaches Session-Active over SSH in
one-shot mode (the connection is established and the remote command runs,
ending with remote exit status 5 — one of the session endings the claim
enumerates) performs zero stop attempts: `run_ssh_command_and_exit` exits the
process without ever calling `stop_instance`, so the claimed "exactly one
stop attempt per invocation that started a transport session" is false. -/
theorem c1_one_shot_no_stop_attempt :
    (handleSshInteraction envC1 "k.pem" "ec2-user" false (some "ls") (some "bastion") 20).1
        = .exited 5
    ∧ Effect.sshConnect "1.2.3.4"
        ∈ (handleSshInteraction envC1 "k.pem" "ec2-user" false (some "ls") (some "bastion") 20).2.2
    ∧ stopAttempts
        (handleSshInteraction envC1 "k.pem" "ec2-user" false (some "ls") (some "bastion") 20).2.2
        = 0 := by
  refine ⟨by decide, by decide, by decide⟩

/-- C1 as amended: only the direct interactive session path has unconditional
teardown — whenever the interactive loop ends (normal remote completion, user
`exit`, idle timeout, or a channel error before the loop) with the transport
active, exactly one stop attempt is made, for every way the session ended;
the direct one-shot path makes no stop attempt on any of its endings. -/
theorem c1_amended_stop_attempts (env : Env) (bastionId command : String)
    (hact : env.transportActive = true)
    (hend : env.invokeShellOk = false ∨
      ((sshLoopRun timeoutSsh env.sessionStart env.sessionTrace).2).isSome = true) :
    stopAttempts (sshInteractiveSessionHandler env bastionId).2.2 = 1
    ∧ stopAttempts (runSshCommandAndExit env command).2 = 0 := by
  constructor
  · have hstop1 : stopAttempts (stopInstance env bastionId).2.2 = 1 := by
      unfold stopInstance
      split
      · simp [stopAttempts, isStopAttempt]
      · split <;> simp [stopAttempts, isStopAttempt]
    rcases hsi : stopInstance env bastionId with ⟨r, env2, trStop⟩
    have htr : trStop.countP isStopAttempt = 1 := by
      rw [hsi] at hstop1
      exact hstop1
    unfold sshInteractiveSessionHandler
    rcases hend with h | h
    · simp only [h, if_pos]
      cases r <;>
        simp [hact, hsi, stopAttempts, isStopAttempt, List.countP_append, htr]
    · rcases hrun : (sshLoopRun timeoutSsh env.sessionStart env.sessionTrace).2 with _ | e
      · rw [hrun] at h
        simp at h
      · by_cases hok : env.invokeShellOk = false
        · cases r <;>
            simp [hok, hact, hsi, stopAttempts, isStopAttempt, List.countP_append, htr]
        · cases r <;>
            simp [hok, hrun, hact, hsi, stopAttempts, isStopAttempt, List.countP_append, htr]
  · unfold runSshCommandAndExit
    split
    · simp [stopAttempts, isStopAttempt]
    · split <;> simp [stopAttempts, isStopAttempt]

/-- Witness for C1 as amended: in the base world the interactive loop breaks
immediately via the remote-completion flag and teardown makes exactly one
stop attempt; the one-shot path makes none. -/
theorem c1_amended_stop_attempts_witness :
    (envC1w.transportActive = true
      ∧ (envC1w.invokeShellOk = false ∨
          ((sshLoopRun timeoutSsh envC1w.sessionStart envC1w.sessionTrace).2).isSome = true))
    ∧ stopAttempts (sshInteractiveSessionHandler envC1w "i-bbb").2.2 = 1
    ∧ stopAttempts (runSshCommandAndExit envC1w "ls").2 = 0 :=
  ⟨⟨rfl, Or.inr (by decide)⟩,
   c1_amended_stop_attempts envC1w "i-bbb" "ls" rfl (Or.inr (by decide))⟩

/-- C10: calling `handle_ssh_interaction` with `interactive=True` and a
command at the same time raises no error for the conflict: the instance is
ensured operational and the SSH connection is established, but neither branch
after the connect matches, so no shell is invoked, no command is executed, the
connection is not closed and no stop attempt is made — the function just
returns. -/
theorem c10_conflicting_flags_fall_through (env : Env)
    (key user c frag instId host : String) (w : Nat)
    (hval : env.validateOk = true)
    (hscan : scanReservations frag env.reservations = some instId)
    (hstate : env.instanceStates instId = "running" ∨ env.instanceStates instId = "stopped")
    (hip : env.publicIps instId = some host)
    (hconn : env.connectOutcome = ConnectOutcome.ok) :
    (handleSshInteraction env key user true (some c) (some frag) w).1 = .ok ()
    ∧ Effect.sshConnect host
        ∈ (handleSshInteraction env key user true (some c) (some frag) w).2.2
    ∧ Effect.invokeShell
        ∉ (handleSshInteraction env key user true (some c) (some frag) w).2.2
    ∧ (∀ s, Effect.sshExec s
        ∉ (handleSshInteraction env key user true (some c) (some frag) w).2.2)
    ∧ Effect.sshClose
        ∉ (handleSshInteraction env key user true (some c) (some frag) w).2.2
    ∧ stopAttempts
        (handleSshInteraction env key user true (some c) (some frag) w).2.2 = 0 := by
  have hf := findInstanceByName_scan_hit env env.locatorFuel none env.selectInputs frag instId hscan
  rcases hstate with hr | hs
  · unfold handleSshInteraction ensureInstanceOperational
    simp [hval, hf, getInstanceState, hr, getInstancePublicIp, hip,
          sshInstanceConnectionHandler, hconn, stopAttempts, isStopAttempt]
  · unfold handleSshInteraction ensureInstanceOperational
    simp [hval, hf, getInstanceState, hs, startInstance, getInstancePublicIp, hip,
          sshInstanceConnectionHandler, hconn, stopAttempts, isStopAttempt]

/-- Witness for C10 in the base world: the conflicting-flag call returns
normally with the connection open and no stop attempt. -/
theorem c10_conflicting_flags_fall_through_witness :
    (envBase.validateOk = true
      ∧ scanReservations "bastion" envBase.reservations = some "i-bbb"
      ∧ (envBase.instanceStates "i-bbb" = "running"
          ∨ envBase.instanceStates "i-bbb" = "stopped")
      ∧ envBase.publicIps "i-bbb" = some "1.2.3.4"
      ∧ envBase.connectOutcome = ConnectOutcome.ok)
    ∧ (handleSshInteraction envBase "k.pem" "u" true (some "ls") (some "bastion") 20).1 = .ok ()
    ∧ Effect.sshConnect "1.2.3.4"
        ∈ (handleSshInteraction envBase "k.pem" "u" true (some "ls") (some "bastion") 20).2.2
    ∧ Effect.invokeShell
        ∉ (handleSshInteraction envBase "k.pem" "u" true (some "ls") (some "bastion") 20).2.2
    ∧ (∀ s, Effect.sshExec s
        ∉ (handleSshInteraction envBase "k.pem" "u" true (some "ls") (some "bastion") 20).2.2)
    ∧ Effect.sshClose
        ∉ (handleSshInteraction envBase "k.pem" "u" true (some "ls") (some "bastion") 20).2.2
    ∧ stopAttempts
        (handleSshInteraction envBase "k.pem" "u" true (some "ls") (some "bastion") 20).2.2 = 0 :=
  ⟨⟨rfl, by decide, Or.inl rfl, rfl, rfl⟩,
   c10_conflicting_flags_fall_through envBase "k.pem" "u" "ls" "bastion" "i-bbb" "1.2.3.4" 20
     rfl (by decide) (Or.inl rfl) rfl rfl⟩

/-- When the broker child never exits on its own, the liveness loop of
`ssm_session_handler` reaches the timeout branch at second `timeoutSsm + 1`
with `last_input_time` still equal to the session start (no branch of the
loop ever updates it), producing one poll/sleep pair per elapsed second. -/
theorem ssmSessionLoop_never_exit (childExit : Nat → Option Int)
    (hnever : ∀ t, childExit t = none) :
    ∀ (fuel now : Nat), now ≤ timeoutSsm + 1 → timeoutSsm + 2 - now ≤ fuel →
      ssmSessionLoop childExit fuel now 0
        = (.timedOut (timeoutSsm + 1) 0,
           pollSleepBlock1 (timeoutSsm + 1 - now)
             ++ [.pollChild, .log .info, .terminateChild, .waitChild]) := by
  intro fuel
  induction fuel with
  | zero => intro now h1 h2; omega
  | succ f ih =>
    intro now h1 h2
    unfold ssmSessionLoop
    rw [hnever now]
    by_cases hend : now - 0 > timeoutSsm
    · have hnow : now = timeoutSsm + 1 := by omega
      subst hnow
      simp [hend, pollSleepBlock1]
    · simp only [hend, if_false]
      rw [ih (now + 1) (by omega) (by omega)]
      have hsub : timeoutSsm + 1 - now = (timeoutSsm + 1 - (now + 1)) + 1 := by omega
      rw [hsub]
      simp [pollSleepBlock1]

/-- C3 as amended: in the brokered interactive session the timeout clock is
the session start — `last_input_time` is set once before the loop and never
reset, and no activity is observable by this component — so the budget bounds
total session age; when the child outlives the budget it is terminated,
waited on, and the distinguished code -1 is returned without crashing and
without any stop attempt on the instance. -/
theorem c3_amended_brokered_timeout (env : Env) (childExit : Nat → Option Int)
    (fuel : Nat) (instanceId : String)
    (hnever : ∀ t, childExit t = none)
    (hfuel : timeoutSsm + 2 ≤ fuel) :
    ssmSessionHandler env childExit fuel instanceId
      = (.ok (-1), env,
         .spawnSession instanceId ::
           (pollSleepBlock1 (timeoutSsm + 1)
             ++ [.pollChild, .log .info, .terminateChild, .waitChild]))
    ∧ (ssmSessionLoop childExit fuel 0 0).1 = .timedOut (timeoutSsm + 1) 0
    ∧ stopAttempts (ssmSessionHandler env childExit fuel instanceId).2.2 = 0 := by
  have hloop := ssmSessionLoop_never_exit childExit hnever fuel 0 (by omega) (by omega)
  rw [Nat.sub_zero] at hloop
  have hblock : ∀ n, (pollSleepBlock1 n).countP isStopAttempt = 0 := by
    intro n
    induction n with
    | zero => simp [pollSleepBlock1]
    | succ m ih => simp [pollSleepBlock1, List.countP_cons, isStopAttempt, ih]
  have heq : ssmSessionHandler env childExit fuel instanceId
      = (.ok (-1), env,
         .spawnSession instanceId ::
           (pollSleepBlock1 (timeoutSsm + 1)
             ++ [.pollChild, .log .info, .terminateChild, .waitChild])) := by
    simp only [ssmSessionHandler, hloop]
  refine ⟨heq, by rw [hloop], ?_⟩
  rw [heq]
  simp [stopAttempts, List.countP_cons, List.countP_append, isStopAttempt, hblock]

/-- Witness for C3 as amended: a never-exiting child is cut off after the
budget with code -1 and no stop attempt. -/
theorem c3_amended_brokered_timeout_witness :
    ((∀ t : Nat, (fun _ => (none : Option Int)) t = none)
      ∧ timeoutSsm + 2 ≤ timeoutSsm + 2)
    ∧ ssmSessionHandler envBase (fun _ => none) (timeoutSsm + 2) "i-bbb"
        = (.ok (-1), envBase,
           .spawnSession "i-bbb" ::
             (pollSleepBlock1 (timeoutSsm + 1)
               ++ [.pollChild, .log .info, .terminateChild, .waitChild]))
    ∧ (ssmSessionLoop (fun _ => none) (timeoutSsm + 2) 0 0).1
        = .timedOut (timeoutSsm + 1) 0
    ∧ stopAttempts (ssmSessionHandler envBase (fun _ => none) (timeoutSsm + 2) "i-bbb").2.2
        = 0 := by
  have h := c3_amended_brokered_timeout envBase (fun _ => none) (timeoutSsm + 2) "i-bbb"
    (fun _ => rfl) (le_refl _)
  exact ⟨⟨fun _ => rfl, le_refl _⟩, h.1, h.2.1, h.2.2⟩

/-- C3 counterexample: the claim says brokered idle time is measured from the
last observed activity and not as total session age; but the loop observes no
activity at all — with a live child (still running at every poll, as during an
actively used session) the timeout branch is reached exactly when total
session age exceeds the budget, the recorded last-activity instant still
being the session start 0. -/
theorem c3_brokered_timeout_total_age :
    (ssmSessionLoop (fun _ => none) (timeoutSsm + 2) 0 0).1
        = SsmLoopRes.timedOut (timeoutSsm + 1) 0
    ∧ timeoutSsm < (timeoutSsm + 1) - 0 := by
  have h := ssmSessionLoop_never_exit (fun _ => none) (fun _ => rfl) (timeoutSsm + 2) 0
    (by omega) (by omega)
  rw [h]
  exact ⟨rfl, by omega⟩

/-- The per-iteration step, re-expressed through the break it produces and
the updated clock. -/
theorem sshLoopStep_eq (budget l : Nat) (i : IterInput) :
    sshLoopStep budget l i =
      match stepExit budget l i with
      | some e => StepRes.brk (stepClock l i) e
      | none => StepRes.cont (stepClock l i) := by
  unfold stepExit sshLoopStep stepClock
  by_cases h1 : stdinExitCmd i = true <;>
    by_cases h2 : i.exitStatusReady = true <;>
      by_cases h3 : budget < i.time - (if remoteActive i = true then i.time else l) <;>
        simp [h1, h2, h3]

/-- One unfolding of the loop in terms of the per-iteration break and clock
update. -/
theorem sshLoopRun_cons (budget l : Nat) (i : IterInput) (tr : List IterInput) :
    sshLoopRun budget l (i :: tr) =
      match stepExit budget l i with
      | some e => (stepClock l i, some e)
      | none => sshLoopRun budget (stepClock l i) tr := by
  have hdef : sshLoopRun budget l (i :: tr) =
      match sshLoopStep budget l i with
      | .brk l2 e => (l2, some e)
      | .cont l2 => sshLoopRun budget l2 tr := rfl
  rw [hdef, sshLoopStep_eq]
  cases stepExit budget l i <;> rfl

/-- An iteration breaks with the idle timeout exactly when it is not an exit
command, not a remote completion, and the time minus the (possibly just
reset) clock strictly exceeds the budget. -/
theorem stepExit_idle_iff (budget l : Nat) (i : IterInput) :
    stepExit budget l i = some LoopExit.idleTimeout ↔
      stdinExitCmd i = false ∧ i.exitStatusReady = false
        ∧ budget < i.time - stepClock l i := by
  unfold stepExit sshLoopStep stepClock
  by_cases h1 : stdinExitCmd i = true <;>
    by_cases h2 : i.exitStatusReady = true <;>
      by_cases h3 : budget < i.time - (if remoteActive i = true then i.time else l) <;>
        simp [h1, h2, h3]

/-- Lowering the baseline preserves monotonicity of a time trace. -/
theorem timesMono_anti : ∀ (tr : List IterInput) (a b : Nat),
    a ≤ b → timesMono b tr = true → timesMono a tr = true := by
  intro tr
  induction tr with
  | nil => intro a b _ _; rfl
  | cons i rest _ =>
    intro a b hab h
    simp only [timesMono, Bool.and_eq_true, Nat.ble_eq] at h ⊢
    exact ⟨by omega, h.2⟩

/-- Along a monotone time trace the loop's last-activity value never
decreases from one iteration to the next. -/
theorem specLastActivity_take_mono : ∀ (tr : List IterInput) (l0 n : Nat),
    timesMono l0 tr = true →
    specLastActivity l0 (tr.take n) ≤ specLastActivity l0 (tr.take (n + 1)) := by
  intro tr
  induction tr with
  | nil => intro l0 n _; simp [specLastActivity]
  | cons i rest ih =>
    intro l0 n h
    simp only [timesMono, Bool.and_eq_true, Nat.ble_eq] at h
    cases n with
    | zero =>
      simp only [List.take_zero, List.take_succ_cons, specLastActivity]
      by_cases hr : remoteActive i = true
      · simp [hr, h.1]
      · simp [hr]
    | succ m =>
      simp only [List.take_succ_cons, specLastActivity]
      by_cases hr : remoteActive i = true
      · simp only [hr, if_true]
        exact ih i.time m h.2
      · simp only [hr, Bool.false_eq_true, if_false]
        exact ih l0 m (timesMono_anti rest l0 i.time h.1 h.2)

/-- The loop ends with the idle-timeout outcome exactly when some iteration k
is reached with the loop still live, is neither an exit command nor a remote
completion, and its time exceeds the remote-only last-activity value by more
than the budget. -/
theorem sshLoopRun_idle_iff : ∀ (tr : List IterInput) (budget l0 : Nat),
    (sshLoopRun budget l0 tr).2 = some LoopExit.idleTimeout ↔
      ∃ k i, tr.get? k = some i
        ∧ (sshLoopRun budget l0 (tr.take k)).2 = none
        ∧ stdinExitCmd i = false ∧ i.exitStatusReady = false
        ∧ budget < i.time - specLastActivity l0 (tr.take (k + 1)) := by
  intro tr
  induction tr with
  | nil =>
    intro budget l0
    simp [sshLoopRun]
  | cons i rest ih =>
    intro budget l0
    rw [sshLoopRun_cons]
    cases he : stepExit budget l0 i with
    | some e =>
      constructor
      · intro hmain
        have heq : e = LoopExit.idleTimeout := by simpa using hmain
        subst heq
        refine ⟨0, i, rfl, by simp [sshLoopRun], ?_⟩
        have hc := (stepExit_idle_iff budget l0 i).mp he
        refine ⟨hc.1, hc.2.1, ?_⟩
        simpa [List.take_succ_cons, List.take_zero, specLastActivity, stepClock]
          using hc.2.2
      · rintro ⟨k, i2, hget, hrun, hstdin, hready, hbudget⟩
        cases k with
        | zero =>
          have heq : i = i2 := by simpa using hget
          subst heq
          have hstep : stepExit budget l0 i = some LoopExit.idleTimeout := by
            apply (stepExit_idle_iff budget l0 i).mpr
            refine ⟨hstdin, hready, ?_⟩
            simpa [List.take_succ_cons, List.take_zero, specLastActivity, stepClock]
              using hbudget
          rw [he] at hstep
          simpa using hstep
        | succ m =>
          rw [List.take_succ_cons, sshLoopRun_cons, he] at hrun
          simp at hrun
    | none =>
      constructor
      · intro hmain
        rcases (ih budget (stepClock l0 i)).mp hmain
          with ⟨k, i2, hget, hrun, hstdin, hready, hbudget⟩
        refine ⟨k + 1, i2, by simpa using hget, ?_, hstdin, hready, ?_⟩
        · rw [List.take_succ_cons, sshLoopRun_cons, he]
          exact hrun
        · rw [List.take_succ_cons]
          simpa [specLastActivity, stepClock] using hbudget
      · rintro ⟨k, i2, hget, hrun, hstdin, hready, hbudget⟩
        cases k with
        | zero =>
          have heq : i = i2 := by simpa using hget
          subst heq
          have hstep : stepExit budget l0 i = some LoopExit.idleTimeout := by
            apply (stepExit_idle_iff budget l0 i).mpr
            refine ⟨hstdin, hready, ?_⟩
            simpa [List.take_succ_cons, List.take_zero, specLastActivity, stepClock]
              using hbudget
          rw [he] at hstep
          simp at hstep
        | succ m =>
          apply (ih budget (stepClock l0 i)).mpr
          refine ⟨m, i2, by simpa using hget, ?_, hstdin, hready, ?_⟩
          · rw [List.take_succ_cons, sshLoopRun_cons, he] at hrun
            exact hrun
          · rw [List.take_succ_cons] at hbudget
            simpa [specLastActivity, stepClock] using hbudget

/-- C2 counterexample: the claim counts a locally sent command as activity
that resets the idle clock, but the loop never updates `last_input_time` on
the stdin branch.  Starting at time 0, a command ("ls", not "exit") is sent
at time 300; at time 601 the code fires the idle timeout even though by the
claim the last activity was 301 ≤ 600 seconds ago and the timeout must not
fire. -/
theorem c2_local_send_not_activity :
    stdinExitCmd ⟨0, 0, some "ls", false, 300⟩ = false
    ∧ (sshLoopRun timeoutSsh 0
        [⟨0, 0, some "ls", false, 300⟩, ⟨0, 0, none, false, 601⟩]).2
        = some LoopExit.idleTimeout
    ∧ 601 - 300 ≤ timeoutSsh := by
  refine ⟨by decide, by decide, by decide⟩

/-- C2 as amended: in the direct interactive session loop, activity is a
remote byte received (stdout or stderr) — sending a local command does not
reset the clock.  Along any monotone time trace the last-activity timestamp
is monotonically non-decreasing, and the loop terminates with the
idle-timeout outcome exactly when an iteration is reached, with the loop
still live and no exit or remote completion, whose time exceeds the
last-remote-activity timestamp by strictly more than the budget. -/
theorem c2_amended_idle_timeout_iff (budget l0 : Nat) (tr : List IterInput)
    (hm : timesMono l0 tr = true) :
    (∀ n, specLastActivity l0 (tr.take n) ≤ specLastActivity l0 (tr.take (n + 1)))
    ∧ ((sshLoopRun budget l0 tr).2 = some LoopExit.idleTimeout ↔
        ∃ k i, tr.get? k = some i
          ∧ (sshLoopRun budget l0 (tr.take k)).2 = none
          ∧ stdinExitCmd i = false ∧ i.exitStatusReady = false
          ∧ budget < i.time - specLastActivity l0 (tr.take (k + 1))) :=
  ⟨fun n => specLastActivity_take_mono tr l0 n hm, sshLoopRun_idle_iff tr budget l0⟩

/-- Witness for C2 as amended, on a one-iteration trace that fires the
timeout at the direct-session budget. -/
theorem c2_amended_idle_timeout_iff_witness :
    timesMono 0 [⟨0, 0, none, false, 601⟩] = true
    ∧ ((∀ n, specLastActivity 0 (([⟨0, 0, none, false, 601⟩] : List IterInput).take n)
          ≤ specLastActivity 0 (([⟨0, 0, none, false, 601⟩] : List IterInput).take (n + 1)))
      ∧ ((sshLoopRun timeoutSsh 0 [⟨0, 0, none, false, 601⟩]).2 = some LoopExit.idleTimeout ↔
          ∃ k i, ([⟨0, 0, none, false, 601⟩] : List IterInput).get? k = some i
            ∧ (sshLoopRun timeoutSsh 0 (([⟨0, 0, none, false, 601⟩] : List IterInput).take k)).2
                = none
            ∧ stdinExitCmd i = false ∧ i.exitStatusReady = false
            ∧ timeoutSsh < i.time
                - specLastActivity 0 (([⟨0, 0, none, false, 601⟩] : List IterInput).take (k + 1)))) :=
  ⟨by decide, c2_amended_idle_timeout_iff timeoutSsh 0 [⟨0, 0, none, false, 601⟩] (by decide)⟩
